import Mathlib

/-
Verification of the Auronyx water-quality backend core against its
natural-language specification.

The definitions below are a shallow embedding of the JavaScript source:
  - backend/models/Review.js          (WaterQuality schema, calculateQualityScore,
                                       determineStatus, pre-save hook)
  - backend/routes/esp32.js           (POST /data ingestion, checkForAlerts)
  - backend/routes/admin.js           (POST /api/water-quality/review)
  - backend/routes/reviews.js         (POST /api/reviews)
  - backend/services/cronService.js   (device status sweep)
  - models/ESP32Device (unnamed part) (device schema, recordReading, updateStatus)

JavaScript numbers are embedded as rationals; timestamps as rational
milliseconds since the epoch; JavaScript Math.round as jsRound below.
Definitions whose doc comment starts with Modelled from the spec follow the
wording of spec.md instead of the source and exist only to be compared with
the source-derived definitions.
-/

namespace Auronyx

/-- JavaScript Math.round: rounds to the nearest integer, halves toward
positive infinity, i.e. Math.round(x) = floor(x + 0.5). -/
def jsRound (q : ℚ) : ℤ := (q + 1/2).floor

/-! ## Quality Scoring Engine (models/Review.js, calculateQualityScore) -/

/-- Reading source, schema enum [esp32, user_review, manual_entry]
(Review.js line 84). -/
inductive Source where
  | esp32
  | user_review
  | manual_entry
deriving DecidableEq, Repr

/-- Sensor parameter keys of the WaterQuality sensorData sub-document
(Review.js lines 102-133; the schema lists turbidity twice, a copy-paste
artifact that collapses to a single key in JavaScript object literals). -/
inductive Param where
  | turbidity
  | temperature
  | tds
  | conductivity
  | dissolvedOxygen
deriving DecidableEq, Repr

/-- sensorData: each present key holds an object with a numeric value
(the route only stores keys whose value is neither undefined nor null,
esp32.js lines 55-65, so a present key always carries a value; unit and
status fields are never read by scoring or alerting and are omitted). -/
structure SensorData where
  turbidity : Option ℚ
  temperature : Option ℚ
  tds : Option ℚ
  conductivity : Option ℚ
  dissolvedOxygen : Option ℚ
deriving DecidableEq, Repr

/-- JavaScript property access sensorData[param].value. -/
def SensorData.get (sd : SensorData) : Param → Option ℚ
  | .turbidity => sd.turbidity
  | .temperature => sd.temperature
  | .tds => sd.tds
  | .conductivity => sd.conductivity
  | .dissolvedOxygen => sd.dissolvedOxygen

/-- Turbidity sub-score (Review.js lines 283-288). -/
def turbidityScore (v : ℚ) : ℚ :=
  if v < 5 then 100 else if v < 10 then 80 else if v < 20 then 60 else 30

/-- TDS sub-score (Review.js lines 290-295). -/
def tdsScore (v : ℚ) : ℚ :=
  if 150 ≤ v ∧ v ≤ 500 then 100
  else if 100 ≤ v ∧ v ≤ 750 then 80
  else if 50 ≤ v ∧ v ≤ 1000 then 60
  else 40

/-- Temperature sub-score (Review.js lines 297-301). -/
def temperatureScore (v : ℚ) : ℚ :=
  if 10 ≤ v ∧ v ≤ 25 then 100 else if 5 ≤ v ∧ v ≤ 30 then 80 else 60

/-- Dissolved-oxygen sub-score (Review.js lines 303-308). -/
def dissolvedOxygenScore (v : ℚ) : ℚ :=
  if 6 < v then 100 else if 4 < v then 80 else if 2 < v then 60 else 30

/-- The (paramScore, weight) contributions accumulated by the sensor branch
of calculateQualityScore (Review.js lines 268-313): the forEach over
Object.keys(sensorWeights) visits turbidity, tds, temperature,
dissolvedOxygen in that literal order and, for each key present in
sensorData with a defined value, adds paramScore * weight to score and
weight to totalWeight.  This list holds exactly the visited contributions. -/
def sensorTerms (sd : SensorData) : List (ℚ × ℚ) :=
  (match sd.turbidity with | some v => [(turbidityScore v, 0.45)] | none => []) ++
  (match sd.tds with | some v => [(tdsScore v, 0.20)] | none => []) ++
  (match sd.temperature with | some v => [(temperatureScore v, 0.15)] | none => []) ++
  (match sd.dissolvedOxygen with | some v => [(dissolvedOxygenScore v, 0.20)] | none => [])

/-- Review-rating field keys of the reviewWeights table
(Review.js lines 316-321). -/
inductive ReviewParam where
  | overallRating
  | taste
  | clarity
  | odor
deriving DecidableEq, Repr

/-- Weight table reviewWeights (Review.js lines 316-321). -/
def reviewWeight : ReviewParam → ℚ
  | .overallRating => 0.4
  | .taste => 0.2
  | .clarity => 0.2
  | .odor => 0.2

/-- A taste/clarity/odor sub-document: an object with an optional numeric
rating (the description field is never read by scoring and is omitted). -/
structure SubRating where
  rating : Option ℚ
deriving DecidableEq, Repr

/-- reviewData sub-document (Review.js lines 135-160): overallRating is a
bare Number in the schema, while taste, clarity and odor are objects with a
rating field. -/
structure ReviewData where
  overallRating : Option ℚ
  taste : Option SubRating
  clarity : Option SubRating
  odor : Option SubRating
deriving DecidableEq, Repr

/-- The JavaScript value found at reviewData[param], as far as the scoring
code inspects it: absent (undefined), a bare number (the overallRating
field), or an object with an optional rating property. -/
inductive JsRatingField where
  | undef
  | num (q : ℚ)
  | obj (r : Option ℚ)
deriving DecidableEq, Repr

/-- JavaScript truthiness of the field value: undefined is falsy, a number
is falsy exactly when it is zero, an object is always truthy. -/
def JsRatingField.truthy : JsRatingField → Bool
  | .undef => false
  | .num q => decide (q ≠ 0)
  | .obj _ => true

/-- JavaScript property access field.rating: defined only on an object that
carries a rating; on a bare number the property is undefined. -/
def JsRatingField.ratingProp : JsRatingField → Option ℚ
  | .obj r => r
  | _ => none

/-- reviewData[param] as a JavaScript value (schema shapes above):
overallRating is stored as a Number, the three sub-ratings as objects. -/
def ReviewData.jsField (rd : ReviewData) : ReviewParam → JsRatingField
  | .overallRating => match rd.overallRating with | none => .undef | some q => .num q
  | .taste => match rd.taste with | none => .undef | some s => .obj s.rating
  | .clarity => match rd.clarity with | none => .undef | some s => .obj s.rating
  | .odor => match rd.odor with | none => .undef | some s => .obj s.rating

/-- The guard of the review branch (Review.js line 324):
if (this.reviewData[param] && this.reviewData[param].rating) — the rating is
used only when the field is truthy and its rating property is a truthy
number.  Returns that rating when the guard passes. -/
def ratingGuard (f : JsRatingField) : Option ℚ :=
  if f.truthy then
    match f.ratingProp with
    | some r => if r ≠ 0 then some r else none
    | none => none
  else none

/-- The (paramScore, weight) contributions accumulated by the review branch
of calculateQualityScore (Review.js lines 314-334): the forEach visits
overallRating, taste, clarity, odor; each key passing the guard contributes
(rating / 5) * 100 with its table weight. -/
def reviewTerms (rd : ReviewData) : List (ℚ × ℚ) :=
  [ReviewParam.overallRating, .taste, .clarity, .odor].filterMap fun p =>
    match ratingGuard (rd.jsField p) with
    | some r => some ((r / 5) * 100, reviewWeight p)
    | none => none

/-- The schema validators on reviewData (Review.js lines 136-153): every
stored rating lies between 1 and 5.  Mongoose validation runs before the
pre-save hook that recomputes the score, so every saved document satisfies
this. -/
def ratingsValid (rd : ReviewData) : Prop :=
  (∀ r ∈ rd.overallRating, 1 ≤ r ∧ r ≤ 5) ∧
  (∀ s ∈ rd.taste, ∀ r ∈ s.rating, 1 ≤ r ∧ r ≤ 5) ∧
  (∀ s ∈ rd.clarity, ∀ r ∈ s.rating, 1 ≤ r ∧ r ≤ 5) ∧
  (∀ s ∈ rd.odor, ∀ r ∈ s.rating, 1 ≤ r ∧ r ≤ 5)

/-- A WaterQuality document as far as calculateQualityScore reads it:
source, sensorData and reviewData (each nested sub-document may be absent;
an absent sub-document is falsy in the branch guards of lines 266 and 314). -/
structure WaterQualityDoc where
  source : Source
  sensorData : Option SensorData
  reviewData : Option ReviewData
deriving DecidableEq, Repr

/-- The contributions the single pass of calculateQualityScore accumulates:
the sensor branch runs when source is esp32 and sensorData is truthy, the
review branch when source is user_review and reviewData is truthy, and
otherwise nothing is accumulated (Review.js lines 266 and 314). -/
def scoreTerms (doc : WaterQualityDoc) : List (ℚ × ℚ) :=
  match doc.source with
  | .esp32 => match doc.sensorData with | some sd => sensorTerms sd | none => []
  | .user_review => match doc.reviewData with | some rd => reviewTerms rd | none => []
  | .manual_entry => []

/-- Accumulated score variable: sum of paramScore * weight over the visited
contributions (Review.js lines 310 and 331). -/
def sumScore (terms : List (ℚ × ℚ)) : ℚ := (terms.map fun t => t.1 * t.2).sum

/-- Accumulated totalWeight variable: sum of the visited weights
(Review.js lines 311 and 332). -/
def sumWeight (terms : List (ℚ × ℚ)) : ℚ := (terms.map fun t => t.2).sum

/-- calculateQualityScore (Review.js lines 262-338): the weighted
accumulation above, then return totalWeight > 0
? Math.round(score / totalWeight) : 50. -/
def calculateQualityScore (doc : WaterQualityDoc) : ℤ :=
  let terms := scoreTerms doc
  if 0 < sumWeight terms then jsRound (sumScore terms / sumWeight terms) else 50

/-- Derived status enum (Review.js lines 182-185). -/
inductive Status where
  | excellent
  | good
  | fair
  | poor
  | critical
deriving DecidableEq, Repr

/-- determineStatus (Review.js lines 341-347). -/
def determineStatus (qualityScore : ℤ) : Status :=
  if 80 ≤ qualityScore then .excellent
  else if 60 ≤ qualityScore then .good
  else if 40 ≤ qualityScore then .fair
  else if 20 ≤ qualityScore then .poor
  else .critical

/-! ## Threshold Evaluator (routes/esp32.js, checkForAlerts) -/

/-- A per-parameter threshold record {min, max, criticalMin, criticalMax};
absent bounds are undefined and skipped by the checks. -/
structure Thresholds where
  min : Option ℚ
  max : Option ℚ
  criticalMin : Option ℚ
  criticalMax : Option ℚ
deriving DecidableEq, Repr

/-- device.thresholds: per-parameter optional threshold records.  The device
schema declares records only for turbidity, temperature and tds (with the
duplicate turbidity key collapsing), so conductivity and dissolvedOxygen are
always absent there, but checkForAlerts looks every sensor key up uniformly,
which this mapping reflects. -/
structure DeviceThresholds where
  turbidity : Option Thresholds
  temperature : Option Thresholds
  tds : Option Thresholds
  conductivity : Option Thresholds
  dissolvedOxygen : Option Thresholds
deriving DecidableEq, Repr

/-- JavaScript property access device.thresholds[sensorKey]. -/
def DeviceThresholds.get (th : DeviceThresholds) : Param → Option Thresholds
  | .turbidity => th.turbidity
  | .temperature => th.temperature
  | .tds => th.tds
  | .conductivity => th.conductivity
  | .dissolvedOxygen => th.dissolvedOxygen

/-- Alert severity: the type field of a pushed alert object is the string
critical or warning (esp32.js lines 522-554 and 558-575). -/
inductive Severity where
  | critical
  | warning
deriving DecidableEq, Repr

/-- The sensor field of an alert: a parameter key, or the string overall for
the quality-score breakpoint alerts. -/
inductive AlertParam where
  | param (p : Param)
  | overall
deriving DecidableEq, Repr

/-- One alert object as pushed by checkForAlerts: {type, sensor, message,
value, threshold}.  The message is a string interpolation of the other
fields and is omitted. -/
structure AlertEvent where
  severity : Severity
  sensor : AlertParam
  value : ℚ
  threshold : ℚ
deriving DecidableEq, Repr

/-- Fourth rule of the per-parameter chain (esp32.js lines 546-554):
if (max !== undefined && value > max) push a warning. -/
def checkMaxRule (p : Param) (v : ℚ) (t : Thresholds) : Option AlertEvent :=
  match t.max with
  | some m => if m < v then some ⟨.warning, .param p, v, m⟩ else none
  | none => none

/-- Third rule (esp32.js lines 538-545): else if (min !== undefined &&
value < min) push a warning, else fall through to the max rule. -/
def checkMinRule (p : Param) (v : ℚ) (t : Thresholds) : Option AlertEvent :=
  match t.min with
  | some m => if v < m then some ⟨.warning, .param p, v, m⟩ else checkMaxRule p v t
  | none => checkMaxRule p v t

/-- Second rule (esp32.js lines 530-537): else if (criticalMax !== undefined
&& value > criticalMax) push a critical alert, else fall through. -/
def checkCritMaxRule (p : Param) (v : ℚ) (t : Thresholds) : Option AlertEvent :=
  match t.criticalMax with
  | some m => if m < v then some ⟨.critical, .param p, v, m⟩ else checkMinRule p v t
  | none => checkMinRule p v t

/-- The full if / else-if chain run for one sensor key with its value and
configured thresholds (esp32.js lines 522-554), starting with the first
rule: if (criticalMin !== undefined && value < criticalMin) push a critical
alert.  At most one alert is produced per parameter by construction of the
chain. -/
def checkParamAlert (p : Param) (v : ℚ) (t : Thresholds) : Option AlertEvent :=
  match t.criticalMin with
  | some m => if v < m then some ⟨.critical, .param p, v, m⟩ else checkCritMaxRule p v t
  | none => checkCritMaxRule p v t

/-- The sensor keys of waterQualityData.sensorData, in schema order.  The
JavaScript iterates Object.keys of the stored sub-document; the set of keys
visited with both a stored value and a thresholds record is what matters,
and the order is irrelevant to every property proved below. -/
def allParams : List Param :=
  [.turbidity, .temperature, .tds, .conductivity, .dissolvedOxygen]

/-- The loop body of checkForAlerts for one sensor key (esp32.js lines
514-555): when both the stored sensor object and the thresholds record are
truthy, run the rule chain, else push nothing. -/
def paramAlertAt (sd : SensorData) (th : DeviceThresholds) (q : Param) : Option AlertEvent :=
  match sd.get q, th.get q with
  | some v, some t => checkParamAlert q v t
  | _, _ => none

/-- The per-parameter part of checkForAlerts (esp32.js lines 513-556): for
each sensor key present in sensorData whose device thresholds record exists
(both truthy), run the rule chain and collect the pushed alerts. -/
def paramAlerts (sd : SensorData) (th : DeviceThresholds) : List AlertEvent :=
  allParams.filterMap (paramAlertAt sd th)

/-- The overall quality-score check (esp32.js lines 558-575):
qualityScore < 40 pushes a critical overall alert with threshold 40, else
qualityScore < 60 pushes a warning overall alert with threshold 60. -/
def overallAlerts (qualityScore : ℤ) : List AlertEvent :=
  if qualityScore < 40 then [⟨.critical, .overall, qualityScore, 40⟩]
  else if qualityScore < 60 then [⟨.warning, .overall, qualityScore, 60⟩]
  else []

/-- checkForAlerts(waterQualityData, device) (esp32.js lines 510-578): the
per-parameter threshold alerts followed by the overall-score alerts, taking
the fields the function reads — waterQualityData.sensorData,
waterQualityData.qualityScore and device.thresholds — as arguments. -/
def checkForAlerts (sd : SensorData) (qualityScore : ℤ) (th : DeviceThresholds) :
    List AlertEvent :=
  paramAlerts sd th ++ overallAlerts qualityScore

/-! ## Device State Tracker (ESP32Device model and routes/esp32.js) -/

/-- Device status enum (device schema lines 32-36). -/
inductive DeviceStatus where
  | online
  | offline
  | maintenance
  | error
deriving DecidableEq, Repr

/-- device.statistics (device schema lines 167-185): counters plus the
averageQualityScore field, default 0. -/
structure DeviceStats where
  totalReadings : ℕ
  successfulReadings : ℕ
  failedReadings : ℕ
  lastReadingTime : Option ℚ
  averageQualityScore : ℚ
deriving DecidableEq, Repr

/-- A fresh statistics record with the schema defaults. -/
def DeviceStats.init : DeviceStats :=
  { totalReadings := 0, successfulReadings := 0, failedReadings := 0,
    lastReadingTime := none, averageQualityScore := 0 }

/-- An ESP32Device as far as the verified operations read or write it:
status, lastSeen (rational milliseconds) and statistics, plus the
thresholds consulted by checkForAlerts.  Fields never consulted by these
operations (location, sensors, configuration, health, metadata,
accessControl) are omitted. -/
structure Device where
  status : DeviceStatus
  lastSeen : ℚ
  statistics : DeviceStats
  thresholds : DeviceThresholds
deriving DecidableEq, Repr

/-- recordReading(successful) (device model lines 275-284): increments
totalReadings, then the matching success or failure counter, sets
lastReadingTime to now, and saves.  No other statistics field is written;
in particular averageQualityScore is left untouched.  The pre-save hook
only refreshes lastSeen when status was modified to online, which
recordReading never does. -/
def recordReading (successful : Bool) (now : ℚ) (d : Device) : Device :=
  { d with statistics :=
    { d.statistics with
      totalReadings := d.statistics.totalReadings + 1
      successfulReadings :=
        if successful then d.statistics.successfulReadings + 1
        else d.statistics.successfulReadings
      failedReadings :=
        if successful then d.statistics.failedReadings
        else d.statistics.failedReadings + 1
      lastReadingTime := some now } }

/-- updateStatus(status) (device model lines 266-272): assigns the given
status unconditionally, refreshing lastSeen when the new status is online,
then saves. -/
def updateStatus (s : DeviceStatus) (now : ℚ) (d : Device) : Device :=
  { d with status := s, lastSeen := if s = .online then now else d.lastSeen }

/-! ## Reading Ingestion (routes/esp32.js POST /data) -/

/-- The device mutation performed while processing an accepted reading
(esp32.js lines 44-49): device.status = online and device.lastSeen = new
Date(), unconditionally, whatever the previous status.  The health-field
refreshes on lines 47-49 touch fields outside this model. -/
def postDataDeviceUpdate (now : ℚ) (d : Device) : Device :=
  { d with status := .online, lastSeen := now }

/-- The persistence outcome of one POST /data call for an existing device
(esp32.js lines 44-127), as the pair (persisted device state, success flag).
The in-memory device update (lines 44-49) is only persisted by the
device.save() inside recordReading (line 91), which runs after
waterQualityData.save() (line 88).  When that save throws, control jumps to
the catch block (lines 120-127), which logs and answers 500 with the error
message: the device document is never saved, so its persisted state is the
pre-call one, and no counter moves.  On success the updated device with
recordReading(true) applied is persisted and the route answers success. -/
def postDataPersist (saveFails : Bool) (now : ℚ) (d : Device) : Device × Bool :=
  if saveFails then (d, false)
  else (recordReading true now (postDataDeviceUpdate now d), true)

/-! ## Review ingestion paths (routes/admin.js and routes/reviews.js) -/

/-- Result of POST /api/water-quality/review: the qualityScore computed by
the pre-save hook and the alert events the route emits. -/
structure SubmitReviewResult where
  qualityScore : ℤ
  emittedAlerts : List AlertEvent
deriving DecidableEq, Repr

/-- POST /api/water-quality/review (admin.js): builds a WaterQuality with
source user_review and the submitted reviewData, saves it (the pre-save
hook of Review.js lines 253-259 computes qualityScore via
calculateQualityScore) and responds with the score.  The route never calls
checkForAlerts and never emits an alert event, so emittedAlerts is empty
by construction of the handler. -/
def submitReview (rd : ReviewData) : SubmitReviewResult :=
  { qualityScore := calculateQualityScore
      { source := .user_review, sensorData := none, reviewData := some rd }
    emittedAlerts := [] }

/-- POST /api/reviews (reviews.js lines 14-82): validates, saves a Review
document — a model with no qualityScore field at all — and responds.  The
handler contains no alert computation and emits no alert events. -/
def reviewsPostEmittedAlerts (_rd : ReviewData) : List AlertEvent := []

/-! ## Maintenance Scheduler (services/cronService.js, device status job) -/

/-- Liveness timeout of the status sweep: 10 * 60 * 1000 milliseconds
(cronService.js line 17). -/
def sweepTimeout : ℚ := 10 * 60 * 1000

/-- The per-device transition of the sweep body (cronService.js lines
15-24): a device currently online whose now - lastSeen exceeds the timeout
is set to offline (the pre-save hook does not fire on a transition to
offline); every other device is not written at all. -/
def sweepStep (now : ℚ) (d : Device) : Device :=
  if d.status = .online ∧ sweepTimeout < now - d.lastSeen
  then { d with status := .offline } else d

/-- One run of the device status job (cronService.js lines 8-28) over the
device list, with saveFails telling which device.save() calls throw.  The
for-loop sits inside a single try/catch: when a save throws, the error
propagates out of the loop to the catch (line 25-27), which logs it; the
throwing device keeps its persisted pre-sweep state and every remaining
device is left unprocessed. -/
def sweepRun (saveFails : Device → Bool) (now : ℚ) : List Device → List Device
  | [] => []
  | d :: rest =>
    if d.status = .online ∧ sweepTimeout < now - d.lastSeen then
      let d2 := { d with status := DeviceStatus.offline }
      if saveFails d2 then d :: rest
      else d2 :: sweepRun saveFails now rest
    else d :: sweepRun saveFails now rest

/-! ## Definitions modelled from the spec, for comparison -/

/-- Modelled from the spec: review scoring contribution list — weight table
overall rating 0.40, taste 0.20, clarity 0.20, odor 0.20, each present
rating linearly mapped by rating / 5 * 100; a sub-rating counts as present
when its rating is given. -/
def specReviewTerms (rd : ReviewData) : List (ℚ × ℚ) :=
  (match rd.overallRating with | some r => [((r / 5) * 100, 0.4)] | none => []) ++
  (match rd.taste.bind SubRating.rating with | some r => [((r / 5) * 100, 0.2)] | none => []) ++
  (match rd.clarity.bind SubRating.rating with | some r => [((r / 5) * 100, 0.2)] | none => []) ++
  (match rd.odor.bind SubRating.rating with | some r => [((r / 5) * 100, 0.2)] | none => [])

/-- Modelled from the spec: review score — weighted average of the present
sub-ratings with weights renormalized to sum to 1, rounded to an integer,
and the default 50 when no sub-rating is present. -/
def specReviewScore (rd : ReviewData) : ℤ :=
  let terms := specReviewTerms rd
  if 0 < sumWeight terms then jsRound (sumScore terms / sumWeight terms) else 50

/-- Modelled from the spec: the running-mean update of averageQualityScore
over successful readings — from the previous mean over prevCount successful
readings and the score of one further successful reading. -/
def specRunningMean (prevAvg : ℚ) (prevCount : ℕ) (newScore : ℚ) : ℚ :=
  (prevAvg * prevCount + newScore) / (prevCount + 1)

/-! ## General lemmas -/

/-- jsRound agrees with the Mathlib floor of q + 1/2. -/
theorem jsRound_eq_floor (q : ℚ) : jsRound q = ⌊q + 1/2⌋ := by
  rw [jsRound, Rat.floor_def', ← Rat.floor_def]

/-- Evaluation rule for jsRound at a known integer result. -/
theorem jsRound_eq_iff {q : ℚ} {n : ℤ} :
    jsRound q = n ↔ (n : ℚ) ≤ q + 1/2 ∧ q + 1/2 < n + 1 := by
  rw [jsRound_eq_floor, Int.floor_eq_iff]

/-- jsRound stays between integer bounds enclosing its argument. -/
theorem jsRound_bounds {q : ℚ} {lo hi : ℤ} (h1 : (lo : ℚ) ≤ q) (h2 : q ≤ (hi : ℚ)) :
    lo ≤ jsRound q ∧ jsRound q ≤ hi := by
  rw [jsRound_eq_floor]
  refine ⟨Int.le_floor.mpr (by linarith), ?_⟩
  have hhalf : ⌊(1/2 : ℚ)⌋ = 0 := by
    rw [Int.floor_eq_iff]
    norm_num
  have hmono : ⌊q + 1/2⌋ ≤ ⌊(1/2 : ℚ) + (hi : ℚ)⌋ := Int.floor_mono (by linarith)
  rwa [Int.floor_add_int, hhalf, zero_add] at hmono

/-- Unfolding of sumWeight over a cons cell. -/
theorem sumWeight_cons (t : ℚ × ℚ) (ts : List (ℚ × ℚ)) :
    sumWeight (t :: ts) = t.2 + sumWeight ts := by
  simp [sumWeight]

/-- Unfolding of sumScore over a cons cell. -/
theorem sumScore_cons (t : ℚ × ℚ) (ts : List (ℚ × ℚ)) :
    sumScore (t :: ts) = t.1 * t.2 + sumScore ts := by
  simp [sumScore]

/-- A contribution list with positive weights has nonnegative total weight. -/
theorem sumWeight_nonneg {terms : List (ℚ × ℚ)} (hw : ∀ t ∈ terms, 0 < t.2) :
    0 ≤ sumWeight terms := by
  induction terms with
  | nil => simp [sumWeight]
  | cons t ts ih =>
    have ht := hw t (List.mem_cons_self t ts)
    have := ih fun x hx => hw x (List.mem_cons_of_mem t hx)
    rw [sumWeight_cons]
    linarith

/-- A nonempty contribution list with positive weights has positive total
weight. -/
theorem sumWeight_pos {terms : List (ℚ × ℚ)} (hw : ∀ t ∈ terms, 0 < t.2)
    (hne : terms ≠ []) : 0 < sumWeight terms := by
  cases terms with
  | nil => exact absurd rfl hne
  | cons t ts =>
    have ht := hw t (List.mem_cons_self t ts)
    have := sumWeight_nonneg fun x hx => hw x (List.mem_cons_of_mem t hx)
    rw [sumWeight_cons]
    linarith

/-- The accumulated score of a contribution list with positive weights and
sub-scores between lo and hi is bounded by lo and hi times the accumulated
weight. -/
theorem sumScore_bounds {terms : List (ℚ × ℚ)} {lo hi : ℚ}
    (h : ∀ t ∈ terms, (lo ≤ t.1 ∧ t.1 ≤ hi) ∧ 0 < t.2) :
    lo * sumWeight terms ≤ sumScore terms ∧ sumScore terms ≤ hi * sumWeight terms := by
  induction terms with
  | nil => simp [sumScore, sumWeight]
  | cons t ts ih =>
    obtain ⟨⟨h1, h2⟩, h3⟩ := h t (List.mem_cons_self t ts)
    obtain ⟨ih1, ih2⟩ := ih fun x hx => h x (List.mem_cons_of_mem t hx)
    rw [sumScore_cons, sumWeight_cons]
    constructor <;> nlinarith

/-- The renormalized weighted average of a contribution list lies between
any bounds enclosing every sub-score. -/
theorem weightedAvg_bounds {terms : List (ℚ × ℚ)} {lo hi : ℚ}
    (h : ∀ t ∈ terms, (lo ≤ t.1 ∧ t.1 ≤ hi) ∧ 0 < t.2)
    (hW : 0 < sumWeight terms) :
    lo ≤ sumScore terms / sumWeight terms ∧ sumScore terms / sumWeight terms ≤ hi := by
  obtain ⟨hS1, hS2⟩ := sumScore_bounds h
  constructor
  · rw [le_div_iff₀ hW]; linarith
  · rw [div_le_iff₀ hW]; linarith

/-! ## Scoring lemmas -/

/-- The turbidity sub-score lies between 30 and 100. -/
theorem turbidityScore_bounds (v : ℚ) : 30 ≤ turbidityScore v ∧ turbidityScore v ≤ 100 := by
  unfold turbidityScore
  split_ifs <;> norm_num

/-- The tds sub-score lies between 40 and 100. -/
theorem tdsScore_bounds (v : ℚ) : 40 ≤ tdsScore v ∧ tdsScore v ≤ 100 := by
  unfold tdsScore
  split_ifs <;> norm_num

/-- The temperature sub-score lies between 60 and 100. -/
theorem temperatureScore_bounds (v : ℚ) : 60 ≤ temperatureScore v ∧ temperatureScore v ≤ 100 := by
  unfold temperatureScore
  split_ifs <;> norm_num

/-- The dissolved-oxygen sub-score lies between 30 and 100. -/
theorem dissolvedOxygenScore_bounds (v : ℚ) :
    30 ≤ dissolvedOxygenScore v ∧ dissolvedOxygenScore v ≤ 100 := by
  unfold dissolvedOxygenScore
  split_ifs <;> norm_num

/-- Every sensor contribution has a sub-score between 0 and 100 and a
positive weight. -/
theorem sensorTerms_prop {sd : SensorData} :
    ∀ t ∈ sensorTerms sd, ((0 : ℚ) ≤ t.1 ∧ t.1 ≤ 100) ∧ 0 < t.2 := by
  rcases sd with ⟨tb, tp, td, cd, dox⟩
  intro t ht
  simp only [sensorTerms, List.mem_append] at ht
  rcases ht with ((h | h) | h) | h
  · cases tb with
    | none => simp at h
    | some v =>
      simp at h
      subst h
      have := turbidityScore_bounds v
      constructor
      · constructor <;> [linarith [this.1]; exact this.2]
      · norm_num
  · cases td with
    | none => simp at h
    | some v =>
      simp at h
      subst h
      have := tdsScore_bounds v
      constructor
      · constructor <;> [linarith [this.1]; exact this.2]
      · norm_num
  · cases tp with
    | none => simp at h
    | some v =>
      simp at h
      subst h
      have := temperatureScore_bounds v
      constructor
      · constructor <;> [linarith [this.1]; exact this.2]
      · norm_num
  · cases dox with
    | none => simp at h
    | some v =>
      simp at h
      subst h
      have := dissolvedOxygenScore_bounds v
      constructor
      · constructor <;> [linarith [this.1]; exact this.2]
      · norm_num

/-- Every review weight is positive. -/
theorem reviewWeight_pos (p : ReviewParam) : 0 < reviewWeight p := by
  cases p <;> norm_num [reviewWeight]

/-- A rating passing the guard comes from a stored sub-rating of the
document: the guard never succeeds on overallRating, and on the object
fields it returns exactly the stored rating when that rating is nonzero. -/
theorem ratingGuard_jsField {rd : ReviewData} {p : ReviewParam} {r : ℚ}
    (h : ratingGuard (rd.jsField p) = some r) :
    (p = .taste ∧ ∃ s ∈ rd.taste, s.rating = some r) ∨
    (p = .clarity ∧ ∃ s ∈ rd.clarity, s.rating = some r) ∨
    (p = .odor ∧ ∃ s ∈ rd.odor, s.rating = some r) := by
  cases p with
  | overallRating =>
    exfalso
    rcases ho : rd.overallRating with _ | q <;>
      simp [ReviewData.jsField, ho, ratingGuard, JsRatingField.truthy,
        JsRatingField.ratingProp] at h
  | taste =>
    left
    rcases ho : rd.taste with _ | s
    · simp [ReviewData.jsField, ho, ratingGuard, JsRatingField.truthy] at h
    · refine ⟨rfl, s, rfl, ?_⟩
      rcases hr : s.rating with _ | r0 <;>
        simp [ReviewData.jsField, ho, hr, ratingGuard, JsRatingField.truthy,
          JsRatingField.ratingProp] at h
      · exact h.2 ▸ rfl
  | clarity =>
    right; left
    rcases ho : rd.clarity with _ | s
    · simp [ReviewData.jsField, ho, ratingGuard, JsRatingField.truthy] at h
    · refine ⟨rfl, s, rfl, ?_⟩
      rcases hr : s.rating with _ | r0 <;>
        simp [ReviewData.jsField, ho, hr, ratingGuard, JsRatingField.truthy,
          JsRatingField.ratingProp] at h
      · exact h.2 ▸ rfl
  | odor =>
    right; right
    rcases ho : rd.odor with _ | s
    · simp [ReviewData.jsField, ho, ratingGuard, JsRatingField.truthy] at h
    · refine ⟨rfl, s, rfl, ?_⟩
      rcases hr : s.rating with _ | r0 <;>
        simp [ReviewData.jsField, ho, hr, ratingGuard, JsRatingField.truthy,
          JsRatingField.ratingProp] at h
      · exact h.2 ▸ rfl

/-- Under the schema validators, every review contribution has a sub-score
between 0 and 100 and a positive weight. -/
theorem reviewTerms_prop {rd : ReviewData} (hv : ratingsValid rd) :
    ∀ t ∈ reviewTerms rd, ((0 : ℚ) ≤ t.1 ∧ t.1 ≤ 100) ∧ 0 < t.2 := by
  intro t ht
  simp only [reviewTerms, List.mem_filterMap] at ht
  obtain ⟨p, -, hp⟩ := ht
  rcases hg : ratingGuard (rd.jsField p) with _ | r
  · rw [hg] at hp; exact absurd hp (by simp)
  · rw [hg] at hp
    simp only [Option.some.injEq] at hp
    subst hp
    have hr : 1 ≤ r ∧ r ≤ 5 := by
      obtain ⟨hvo, hvt, hvc, hvod⟩ := hv
      rcases ratingGuard_jsField hg with ⟨-, s, hs, hsr⟩ | ⟨-, s, hs, hsr⟩ | ⟨-, s, hs, hsr⟩
      · exact hvt s hs r (by rw [hsr]; rfl)
      · exact hvc s hs r (by rw [hsr]; rfl)
      · exact hvod s hs r (by rw [hsr]; rfl)
    refine ⟨⟨?_, ?_⟩, reviewWeight_pos p⟩
    · nlinarith [hr.1]
    · nlinarith [hr.2]

/-- The contributions of any document have sub-scores between 0 and 100 and
positive weights, given the schema validators on stored ratings. -/
theorem scoreTerms_prop {doc : WaterQualityDoc}
    (hv : ∀ rd, doc.reviewData = some rd → ratingsValid rd) :
    ∀ t ∈ scoreTerms doc, ((0 : ℚ) ≤ t.1 ∧ t.1 ≤ 100) ∧ 0 < t.2 := by
  intro t ht
  rcases doc with ⟨src, sdo, rdo⟩
  cases src with
  | esp32 =>
    cases sdo with
    | none => simp [scoreTerms] at ht
    | some sd => exact sensorTerms_prop t (by simpa [scoreTerms] using ht)
  | user_review =>
    cases rdo with
    | none => simp [scoreTerms] at ht
    | some rd =>
      exact reviewTerms_prop (hv rd rfl) t (by simpa [scoreTerms] using ht)
  | manual_entry => simp [scoreTerms] at ht

/-! ## Claim C7 -/

/-- Claim C7 (confirmed): for every sensor reading with a non-empty subset
of the four weighted parameters present, the final quality score is the
rounded weighted average of the present piecewise sub-scores with weights
renormalized over the present subset — hence it lies between any integer
bounds enclosing all present sub-scores (in particular within their convex
hull) — and the score defaults to 50 when no recognized parameter is
present. -/
theorem C7_sensor_weighted_average (sd : SensorData) (rdo : Option ReviewData) :
    (sensorTerms sd ≠ [] →
      calculateQualityScore ⟨.esp32, some sd, rdo⟩ =
        jsRound (sumScore (sensorTerms sd) / sumWeight (sensorTerms sd)) ∧
      ∀ lo hi : ℤ, (∀ t ∈ sensorTerms sd, (lo : ℚ) ≤ t.1 ∧ t.1 ≤ (hi : ℚ)) →
        lo ≤ calculateQualityScore ⟨.esp32, some sd, rdo⟩ ∧
        calculateQualityScore ⟨.esp32, some sd, rdo⟩ ≤ hi)
    ∧ (sensorTerms sd = [] → calculateQualityScore ⟨.esp32, some sd, rdo⟩ = 50) := by
  have hterms : scoreTerms ⟨.esp32, some sd, rdo⟩ = sensorTerms sd := rfl
  constructor
  · intro hne
    have hW : 0 < sumWeight (sensorTerms sd) :=
      sumWeight_pos (fun t ht => (sensorTerms_prop t ht).2) hne
    have heq : calculateQualityScore ⟨.esp32, some sd, rdo⟩ =
        jsRound (sumScore (sensorTerms sd) / sumWeight (sensorTerms sd)) := by
      simp only [calculateQualityScore, hterms]
      rw [if_pos hW]
    refine ⟨heq, ?_⟩
    intro lo hi hbounds
    have havg := weightedAvg_bounds
      (fun t ht => ⟨hbounds t ht, (sensorTerms_prop t ht).2⟩) hW
    rw [heq]
    exact jsRound_bounds havg.1 havg.2
  · intro hempty
    simp [calculateQualityScore, hterms, hempty, sumWeight]

/-- Witness for C7: a reading with only turbidity 25 present has the single
sub-score 30, and the theorem pins the final score between 30 and 30. -/
theorem C7_sensor_weighted_average_witness :
    (30 : ℤ) ≤ calculateQualityScore
        ⟨.esp32, some ⟨some 25, none, none, none, none⟩, none⟩ ∧
    calculateQualityScore
        ⟨.esp32, some ⟨some 25, none, none, none, none⟩, none⟩ ≤ 30 :=
  ((C7_sensor_weighted_average ⟨some 25, none, none, none, none⟩ none).1
      (by norm_num [sensorTerms, turbidityScore])).2 30 30
    (by
      intro t ht
      norm_num [sensorTerms, turbidityScore] at ht
      rw [ht]
      norm_num)

/-! ## Claim C10 -/

/-- Claim C10 (confirmed): for every WaterQuality document whose stored
ratings respect the schema validators, calculateQualityScore evaluates
totally (it is a total function here) to an integer between 0 and 100; when
no scoring branch applies (for example source manual_entry) or no
recognized parameter or rating contributes, it returns exactly 50, so the
pre-save recomputation always succeeds and determineStatus is defined on
the result. -/
theorem C10_score_total_and_bounded (doc : WaterQualityDoc)
    (hv : ∀ rd, doc.reviewData = some rd → ratingsValid rd) :
    (0 ≤ calculateQualityScore doc ∧ calculateQualityScore doc ≤ 100)
    ∧ (doc.source = .manual_entry → calculateQualityScore doc = 50)
    ∧ (scoreTerms doc = [] → calculateQualityScore doc = 50) := by
  have hdefault : scoreTerms doc = [] → calculateQualityScore doc = 50 := by
    intro h
    simp [calculateQualityScore, h, sumWeight]
  refine ⟨?_, ?_, hdefault⟩
  · by_cases hW : 0 < sumWeight (scoreTerms doc)
    · have havg := weightedAvg_bounds (scoreTerms_prop hv) hW
      have heq : calculateQualityScore doc =
          jsRound (sumScore (scoreTerms doc) / sumWeight (scoreTerms doc)) := by
        simp only [calculateQualityScore]
        rw [if_pos hW]
      rw [heq]
      exact jsRound_bounds (by exact_mod_cast havg.1) (by exact_mod_cast havg.2)
    · have : calculateQualityScore doc = 50 := by
        simp only [calculateQualityScore]
        rw [if_neg hW]
      rw [this]
      norm_num
  · intro hsrc
    apply hdefault
    rcases doc with ⟨src, sdo, rdo⟩
    simp only at hsrc
    subst hsrc
    rfl

/-- Witness for C10: the seeded review document with ratings 4, 4, 3, 4
satisfies the validators and its score is between 0 and 100. -/
theorem C10_score_total_and_bounded_witness :
    0 ≤ calculateQualityScore
        ⟨.user_review, none, some ⟨some 4, some ⟨some 4⟩, some ⟨some 3⟩, some ⟨some 4⟩⟩⟩ ∧
    calculateQualityScore
        ⟨.user_review, none, some ⟨some 4, some ⟨some 4⟩, some ⟨some 3⟩, some ⟨some 4⟩⟩⟩ ≤ 100 :=
  (C10_score_total_and_bounded
      ⟨.user_review, none, some ⟨some 4, some ⟨some 4⟩, some ⟨some 3⟩, some ⟨some 4⟩⟩⟩
      (by
        intro rd hrd
        simp only [Option.some.injEq] at hrd
        subst hrd
        refine ⟨?_, ?_, ?_, ?_⟩ <;>
          simp [Option.mem_def] <;> norm_num)).1

/-! ## Alert-evaluation lemmas -/

/-- An alert produced by the max rule carries the parameter it was checked
for and warning severity. -/
theorem checkMaxRule_some {p : Param} {v : ℚ} {t : Thresholds} {a : AlertEvent}
    (h : checkMaxRule p v t = some a) :
    a.sensor = .param p ∧ a.severity = .warning := by
  unfold checkMaxRule at h
  rcases hm : t.max with _ | m <;> simp only [hm] at h
  · cases h
  · split_ifs at h
    simp only [Option.some.injEq] at h
    subst h
    exact ⟨rfl, rfl⟩

/-- An alert produced by the min or max rule carries the parameter it was
checked for and warning severity. -/
theorem checkMinRule_some {p : Param} {v : ℚ} {t : Thresholds} {a : AlertEvent}
    (h : checkMinRule p v t = some a) :
    a.sensor = .param p ∧ a.severity = .warning := by
  unfold checkMinRule at h
  rcases hm : t.min with _ | m <;> simp only [hm] at h
  · exact checkMaxRule_some h
  · split_ifs at h with hlt
    · simp only [Option.some.injEq] at h
      subst h
      exact ⟨rfl, rfl⟩
    · exact checkMaxRule_some h

/-- An alert produced from the criticalMax rule downward carries the
parameter it was checked for. -/
theorem checkCritMaxRule_some {p : Param} {v : ℚ} {t : Thresholds} {a : AlertEvent}
    (h : checkCritMaxRule p v t = some a) : a.sensor = .param p := by
  unfold checkCritMaxRule at h
  rcases hm : t.criticalMax with _ | m <;> simp only [hm] at h
  · exact (checkMinRule_some h).1
  · split_ifs at h with hlt
    · simp only [Option.some.injEq] at h
      subst h
      rfl
    · exact (checkMinRule_some h).1

/-- Every alert produced by the per-parameter chain carries the parameter
it was checked for. -/
theorem checkParamAlert_some {p : Param} {v : ℚ} {t : Thresholds} {a : AlertEvent}
    (h : checkParamAlert p v t = some a) : a.sensor = .param p := by
  unfold checkParamAlert at h
  rcases hm : t.criticalMin with _ | m <;> simp only [hm] at h
  · exact checkCritMaxRule_some h
  · split_ifs at h with hlt
    · simp only [Option.some.injEq] at h
      subst h
      rfl
    · exact checkCritMaxRule_some h

/-- When a configured critical bound is violated, the chain produces an
alert and that alert is critical. -/
theorem checkParamAlert_crit {p : Param} {v : ℚ} {t : Thresholds}
    (hc : (∃ m ∈ t.criticalMin, v < m) ∨ (∃ m ∈ t.criticalMax, m < v)) :
    ∃ a, checkParamAlert p v t = some a ∧ a.severity = .critical := by
  rcases hc with ⟨m, hm, hv⟩ | ⟨m, hm, hv⟩
  · rw [Option.mem_def] at hm
    unfold checkParamAlert
    simp only [hm]
    rw [if_pos hv]
    exact ⟨_, rfl, rfl⟩
  · rw [Option.mem_def] at hm
    have hcm : ∃ a, checkCritMaxRule p v t = some a ∧ a.severity = .critical := by
      unfold checkCritMaxRule
      simp only [hm]
      rw [if_pos hv]
      exact ⟨_, rfl, rfl⟩
    rcases hmin : t.criticalMin with _ | m0
    · unfold checkParamAlert
      simp only [hmin]
      exact hcm
    · unfold checkParamAlert
      simp only [hmin]
      split_ifs with hlt
      · exact ⟨_, rfl, rfl⟩
      · exact hcm

/-- A warning alert from the chain certifies that neither configured
critical bound was violated. -/
theorem checkParamAlert_warning_no_crit {p : Param} {v : ℚ} {t : Thresholds} {a : AlertEvent}
    (h : checkParamAlert p v t = some a) (hw : a.severity = .warning) :
    (∀ m ∈ t.criticalMin, ¬v < m) ∧ (∀ m ∈ t.criticalMax, ¬m < v) := by
  by_contra hnc
  rw [not_and_or] at hnc
  have hc : (∃ m ∈ t.criticalMin, v < m) ∨ (∃ m ∈ t.criticalMax, m < v) := by
    rcases hnc with hnc | hnc
    · left; push_neg at hnc; exact hnc
    · right; push_neg at hnc; exact hnc
  obtain ⟨a2, ha2, hcrit⟩ := checkParamAlert_crit (p := p) hc
  rw [h] at ha2
  simp only [Option.some.injEq] at ha2
  subst ha2
  rw [hw] at hcrit
  cases hcrit

/-- filterMap over a cons cell, in toList-append form. -/
theorem filterMap_cons_toList {α β : Type} (g : α → Option β) (a : α) (l : List α) :
    List.filterMap g (a :: l) = (g a).toList ++ List.filterMap g l := by
  cases h : g a <;> simp [h]

/-- Every alert produced by the loop body for key q carries sensor key q. -/
theorem paramAlertAt_sensor {sd : SensorData} {th : DeviceThresholds} {q : Param}
    {a : AlertEvent} (h : paramAlertAt sd th q = some a) : a.sensor = .param q := by
  unfold paramAlertAt at h
  rcases hs : sd.get q with _ | v <;> rcases hth : th.get q with _ | t <;>
    simp only [hs, hth] at h
  · cases h
  · cases h
  · cases h
  · exact checkParamAlert_some h

/-- The loop-body alerts for a key other than p never match sensor p. -/
theorem filter_paramAlertAt_ne {sd : SensorData} {th : DeviceThresholds}
    {p q : Param} (hne : q ≠ p) :
    ((paramAlertAt sd th q).toList.filter fun a => a.sensor == AlertParam.param p) = [] := by
  rcases hg : paramAlertAt sd th q with _ | a
  · rfl
  · have hs := paramAlertAt_sensor hg
    simp [hs, hne]

/-- The loop-body alerts for key p all match sensor p. -/
theorem filter_paramAlertAt_eq {sd : SensorData} {th : DeviceThresholds} {p : Param} :
    ((paramAlertAt sd th p).toList.filter fun a => a.sensor == AlertParam.param p)
      = (paramAlertAt sd th p).toList := by
  rcases hg : paramAlertAt sd th p with _ | a
  · rfl
  · have hs := paramAlertAt_sensor hg
    simp [hs]

/-- Restricting the collected loop alerts over a duplicate-free key list
containing p to sensor p leaves exactly the loop-body alerts for p. -/
theorem filter_filterMap_paramAlertAt {sd : SensorData} {th : DeviceThresholds}
    (p : Param) (l : List Param) (hl : l.Nodup) (hp : p ∈ l) :
    ((l.filterMap (paramAlertAt sd th)).filter fun a => a.sensor == AlertParam.param p)
      = (paramAlertAt sd th p).toList := by
  induction l with
  | nil => cases hp
  | cons q rest ih =>
    rw [filterMap_cons_toList, List.filter_append]
    rcases List.mem_cons.mp hp with rfl | hp2
    · rw [filter_paramAlertAt_eq]
      have hnot : p ∉ rest := (List.nodup_cons.mp hl).1
      have hrest :
          ((rest.filterMap (paramAlertAt sd th)).filter
            fun a => a.sensor == AlertParam.param p) = [] := by
        rw [List.filter_eq_nil_iff]
        intro a ha
        obtain ⟨q2, hq2mem, hq2⟩ := List.mem_filterMap.mp ha
        have hs := paramAlertAt_sensor hq2
        simp only [hs, beq_iff_eq, AlertParam.param.injEq]
        rintro rfl
        exact hnot hq2mem
      rw [hrest, List.append_nil]
    · have hqp : q ≠ p := by
        rintro rfl
        exact (List.nodup_cons.mp hl).1 hp2
      rw [filter_paramAlertAt_ne hqp, List.nil_append]
      exact ih (List.nodup_cons.mp hl).2 hp2

/-- Every overall alert carries the overall sensor tag. -/
theorem overallAlerts_sensor {score : ℤ} {a : AlertEvent}
    (h : a ∈ overallAlerts score) : a.sensor = .overall := by
  unfold overallAlerts at h
  split_ifs at h <;> simp at h <;> subst h <;> rfl

/-- Restricting the full alert list to one sensor parameter leaves exactly
the alerts of that parameter loop body. -/
theorem checkForAlerts_filter_param (sd : SensorData) (score : ℤ)
    (th : DeviceThresholds) (p : Param) :
    ((checkForAlerts sd score th).filter fun a => a.sensor == AlertParam.param p)
      = (paramAlertAt sd th p).toList := by
  unfold checkForAlerts paramAlerts
  rw [List.filter_append]
  have hover : ((overallAlerts score).filter fun a => a.sensor == AlertParam.param p) = [] := by
    rw [List.filter_eq_nil_iff]
    intro a ha
    simp [overallAlerts_sensor ha]
  rw [hover, List.append_nil]
  exact filter_filterMap_paramAlertAt p allParams (by decide) (by cases p <;> decide)

/-- Restricting the full alert list to the overall tag leaves exactly the
overall breakpoint alerts. -/
theorem checkForAlerts_filter_overall (sd : SensorData) (score : ℤ)
    (th : DeviceThresholds) :
    ((checkForAlerts sd score th).filter fun a => a.sensor == AlertParam.overall)
      = overallAlerts score := by
  unfold checkForAlerts
  rw [List.filter_append]
  have hparam : ((paramAlerts sd th).filter fun a => a.sensor == AlertParam.overall) = [] := by
    rw [List.filter_eq_nil_iff]
    intro a ha
    obtain ⟨q, -, hq⟩ := List.mem_filterMap.mp ha
    simp [paramAlertAt_sensor hq]
  have hover : ((overallAlerts score).filter fun a => a.sensor == AlertParam.overall)
      = overallAlerts score := by
    rw [List.filter_eq_self]
    intro a ha
    simp [overallAlerts_sensor ha]
  rw [hparam, hover, List.nil_append]

/-! ## Claim C8 -/

/-- Claim C8 (confirmed): for every sensor parameter evaluated against
configured thresholds in one reading, at most one alert is emitted for that
parameter; a criticalMin or criticalMax violation yields exactly one alert
for it and that alert is critical; and a warning alert for it certifies
that neither critical bound was violated. -/
theorem C8_one_alert_per_param (sd : SensorData) (score : ℤ) (th : DeviceThresholds)
    (p : Param) (v : ℚ) (t : Thresholds)
    (hv : sd.get p = some v) (ht : th.get p = some t) :
    ((checkForAlerts sd score th).filter fun a => a.sensor == AlertParam.param p).length ≤ 1
    ∧ (((∃ m ∈ t.criticalMin, v < m) ∨ (∃ m ∈ t.criticalMax, m < v)) →
        ∃ a, ((checkForAlerts sd score th).filter fun x => x.sensor == AlertParam.param p)
          = [a] ∧ a.severity = .critical)
    ∧ (∀ a ∈ (checkForAlerts sd score th).filter fun x => x.sensor == AlertParam.param p,
        a.severity = .warning →
          (∀ m ∈ t.criticalMin, ¬v < m) ∧ (∀ m ∈ t.criticalMax, ¬m < v)) := by
  have hat : paramAlertAt sd th p = checkParamAlert p v t := by
    unfold paramAlertAt
    simp only [hv, ht]
  have hfilter := checkForAlerts_filter_param sd score th p
  rw [hat] at hfilter
  refine ⟨?_, ?_, ?_⟩
  · rw [hfilter]
    cases checkParamAlert p v t <;> simp
  · intro hc
    obtain ⟨a, ha, hcrit⟩ := checkParamAlert_crit hc
    refine ⟨a, ?_, hcrit⟩
    rw [hfilter, ha]
    rfl
  · intro a ha hw
    rw [hfilter] at ha
    rcases hca : checkParamAlert p v t with _ | a2
    · rw [hca] at ha
      cases ha
    · rw [hca] at ha
      simp only [Option.toList_some, List.mem_singleton] at ha
      subst ha
      exact checkParamAlert_warning_no_crit hca hw

/-- Witness for C8: turbidity 25 against the default thresholds max 5,
criticalMax 20 in a reading scoring 30 emits exactly one turbidity alert,
and it is critical. -/
theorem C8_one_alert_per_param_witness :
    ∃ a, ((checkForAlerts ⟨some 25, none, none, none, none⟩ 30
        ⟨some ⟨none, some 5, none, some 20⟩, none, none, none, none⟩).filter
        fun x => x.sensor == AlertParam.param .turbidity) = [a]
      ∧ a.severity = .critical :=
  (C8_one_alert_per_param ⟨some 25, none, none, none, none⟩ 30
      ⟨some ⟨none, some 5, none, some 20⟩, none, none, none, none⟩
      .turbidity 25 ⟨none, some 5, none, some 20⟩ rfl rfl).2.1
    (Or.inr ⟨20, rfl, by norm_num⟩)

/-! ## Claim C3 -/

/-- Claim C3 (counterexample): a human review whose computed quality score
is 20 — strictly below the critical breakpoint 40 — is ingested with no
alert emitted at all, refuting the claim that the overall breakpoint check
runs regardless of source. -/
theorem C3_overall_check_counterexample :
    (submitReview ⟨some 1, some ⟨some 1⟩, none, none⟩).qualityScore = 20 ∧
    (submitReview ⟨some 1, some ⟨some 1⟩, none, none⟩).emittedAlerts = [] := by
  refine ⟨?_, rfl⟩
  norm_num [submitReview, calculateQualityScore, scoreTerms, reviewTerms, ratingGuard,
    ReviewData.jsField, JsRatingField.truthy, JsRatingField.ratingProp, reviewWeight,
    sumScore, sumWeight, List.filterMap, jsRound_eq_iff]

/-- Claim C3 (corrected): the overall quality-score breakpoint evaluation
runs only on the esp32 sensor ingestion path, where checkForAlerts emits
exactly one overall alert — critical with threshold 40 when score < 40,
warning with threshold 60 when 40 ≤ score < 60, none when 60 ≤ score —
while both human-review ingestion paths emit no alert events at all. -/
theorem C3_overall_check_amended (sd : SensorData) (th : DeviceThresholds) (score : ℤ) :
    (score < 40 →
      ((checkForAlerts sd score th).filter fun a => a.sensor == AlertParam.overall)
        = [⟨.critical, .overall, (score : ℚ), 40⟩])
    ∧ (40 ≤ score → score < 60 →
      ((checkForAlerts sd score th).filter fun a => a.sensor == AlertParam.overall)
        = [⟨.warning, .overall, (score : ℚ), 60⟩])
    ∧ (60 ≤ score →
      ((checkForAlerts sd score th).filter fun a => a.sensor == AlertParam.overall) = [])
    ∧ (∀ rd, (submitReview rd).emittedAlerts = [] ∧ reviewsPostEmittedAlerts rd = []) := by
  rw [checkForAlerts_filter_overall]
  refine ⟨?_, ?_, ?_, fun rd => ⟨rfl, rfl⟩⟩
  · intro h
    unfold overallAlerts
    rw [if_pos h]
  · intro h1 h2
    unfold overallAlerts
    rw [if_neg (not_lt.mpr h1), if_pos h2]
  · intro h
    unfold overallAlerts
    rw [if_neg (not_lt.mpr (by linarith)), if_neg (not_lt.mpr h)]

/-- Witness for C3: a sensor reading scoring 30 receives the critical
overall alert on the esp32 path. -/
theorem C3_overall_check_amended_witness :
    ((checkForAlerts ⟨none, none, none, none, none⟩ 30
        ⟨none, none, none, none, none⟩).filter
        fun a => a.sensor == AlertParam.overall)
      = [⟨.critical, .overall, (30 : ℚ), 40⟩] :=
  (C3_overall_check_amended ⟨none, none, none, none, none⟩
      ⟨none, none, none, none, none⟩ 30).1 (by norm_num)

/-! ## Claim C1 -/

/-- Claim C1 (code_bug): for a user review carrying only the overall rating
5, the weight table declared in the code gives overallRating weight 0.40
and the specified formula yields 100, but calculateQualityScore returns the
no-contribution default 50: the guard reads the rating property off the
bare Number stored in reviewData.overallRating, which is always undefined,
so the overall rating never contributes to the score. -/
theorem C1_overall_rating_never_contributes :
    calculateQualityScore ⟨.user_review, none, some ⟨some 5, none, none, none⟩⟩ = 50
    ∧ specReviewScore ⟨some 5, none, none, none⟩ = 100
    ∧ (50 : ℤ) ≠ 100 := by
  refine ⟨?_, ?_, by norm_num⟩
  · norm_num [calculateQualityScore, scoreTerms, reviewTerms, ratingGuard,
      ReviewData.jsField, JsRatingField.truthy, JsRatingField.ratingProp, reviewWeight,
      sumScore, sumWeight, List.filterMap]
  · norm_num [specReviewScore, specReviewTerms, sumScore, sumWeight, jsRound_eq_iff]

/-! ## Claim C2 -/

/-- Claim C2 (counterexample): a device in maintenance that processes an
accepted reading does not keep its status — the ingestion route sets it
online unconditionally. -/
theorem C2_sticky_status_counterexample :
    (postDataDeviceUpdate 1
      ⟨.maintenance, 0, DeviceStats.init, ⟨none, none, none, none, none⟩⟩).status
      = .online
    ∧ DeviceStatus.online ≠ .maintenance :=
  ⟨rfl, by decide⟩

/-- Claim C2 (corrected): processing an accepted reading sets the device
status to online and refreshes lastSeen for every device, whatever its
previous status — maintenance and error are not sticky on this path. -/
theorem C2_status_amended (d : Device) (now : ℚ) :
    (postDataDeviceUpdate now d).status = .online
    ∧ (postDataDeviceUpdate now d).lastSeen = now :=
  ⟨rfl, rfl⟩

/-! ## Claim C4 -/

/-- Claim C4 (counterexample): when persisting the Reading fails, the
failed-reading counter of the device stays at its previous value 0 instead
of being incremented to 1. -/
theorem C4_failed_counter_counterexample :
    ((postDataPersist true 0
      ⟨.online, 0, DeviceStats.init, ⟨none, none, none, none, none⟩⟩).1).statistics.failedReadings = 0
    ∧ (0 : ℕ) ≠ 1 :=
  ⟨rfl, by decide⟩

/-- Claim C4 (corrected): when persisting the Reading fails, the error is
surfaced to the caller (the route answers failure) and the persisted device
document is entirely unchanged: its status is not downgraded, but its
failed-reading counter is not incremented either — recordReading(false) is
never invoked on this path. -/
theorem C4_persistence_failure_amended (d : Device) (now : ℚ) :
    postDataPersist true now d = (d, false)
    ∧ ((postDataPersist true now d).1).statistics.failedReadings
        = d.statistics.failedReadings
    ∧ ((postDataPersist true now d).1).status = d.status :=
  ⟨rfl, rfl, rfl⟩

/-! ## Claim C5 -/

/-- Claim C5 (counterexample): a fresh device successfully ingesting one
reading keeps averageQualityScore 0, while the running mean over its
successful readings — here a single reading scoring 100 — is 100. -/
theorem C5_average_score_counterexample :
    ((postDataPersist false 0
      ⟨.online, 0, DeviceStats.init, ⟨none, none, none, none, none⟩⟩).1).statistics.averageQualityScore = 0
    ∧ specRunningMean 0 0 100 = 100
    ∧ (0 : ℚ) ≠ 100 := by
  refine ⟨rfl, ?_, by norm_num⟩
  norm_num [specRunningMean]

/-- Claim C5 (corrected): recordReading increments totalReadings, then the
counter matching the outcome, and stamps lastReadingTime, but it never
touches averageQualityScore, which keeps its previous value (the schema
default 0 for a device never updated elsewhere). -/
theorem C5_statistics_amended (d : Device) (now : ℚ) (s : Bool) :
    (recordReading s now d).statistics.totalReadings = d.statistics.totalReadings + 1
    ∧ (recordReading true now d).statistics.successfulReadings
        = d.statistics.successfulReadings + 1
    ∧ (recordReading false now d).statistics.failedReadings
        = d.statistics.failedReadings + 1
    ∧ (recordReading s now d).statistics.lastReadingTime = some now
    ∧ (recordReading s now d).statistics.averageQualityScore
        = d.statistics.averageQualityScore :=
  ⟨rfl, rfl, rfl, rfl, rfl⟩

/-! ## Claim C9 -/

/-- Claim C9 (confirmed): a failure-free run of the liveness sweep applies
the per-device transition to every device: each device currently online
with now - lastSeen beyond 10 minutes is transitioned to offline, and each
device already offline, in maintenance or in error is left untouched — in
particular maintenance never auto-transitions regardless of lastSeen. -/
theorem C9_sweep_transitions (now : ℚ) (devices : List Device) :
    sweepRun (fun _ => false) now devices = devices.map (sweepStep now)
    ∧ (∀ d : Device, d.status = .online ∧ sweepTimeout < now - d.lastSeen →
        (sweepStep now d).status = .offline)
    ∧ (∀ d : Device, d.status = .offline ∨ d.status = .maintenance ∨ d.status = .error →
        sweepStep now d = d) := by
  refine ⟨?_, ?_, ?_⟩
  · induction devices with
    | nil => rfl
    | cons d rest ih =>
      unfold sweepRun
      by_cases hcond : d.status = .online ∧ sweepTimeout < now - d.lastSeen
      · rw [if_pos hcond]
        have : ((fun _ : Device => false) { d with status := DeviceStatus.offline }) ≠ true := by
          simp
        rw [if_neg this, ih, List.map_cons]
        unfold sweepStep
        rw [if_pos hcond]
      · rw [if_neg hcond, ih, List.map_cons]
        conv_rhs => rw [sweepStep, if_neg hcond]
  · intro d hd
    unfold sweepStep
    rw [if_pos hd]
  · intro d hd
    have hne : ¬(d.status = .online ∧ sweepTimeout < now - d.lastSeen) := by
      rcases hd with h | h | h <;> simp [h]
    unfold sweepStep
    rw [if_neg hne]

/-- Witness for C9: after one failure-free sweep at time 600001 ms, a stale
online device is offline while an equally stale maintenance device is
untouched. -/
theorem C9_sweep_transitions_witness :
    (sweepStep 600001
      ⟨.online, 0, DeviceStats.init, ⟨none, none, none, none, none⟩⟩).status = .offline
    ∧ sweepStep 600001
        ⟨.maintenance, 0, DeviceStats.init, ⟨none, none, none, none, none⟩⟩
      = ⟨.maintenance, 0, DeviceStats.init, ⟨none, none, none, none, none⟩⟩ :=
  ⟨(C9_sweep_transitions 600001 []).2.1 _ ⟨rfl, by norm_num [sweepTimeout]⟩,
   (C9_sweep_transitions 600001 []).2.2 _ (Or.inr (Or.inl rfl))⟩

/-! ## Claim C6 -/

/-- Claim C6 (counterexample): with two equally stale online devices and the
save of the first one failing, the sweep run leaves both untouched — the
second device is never processed even though the per-device transition
would have taken it offline, so the sweep does not continue past a single
device failure. -/
theorem C6_sweep_abort_counterexample :
    sweepRun (fun _ => true) 600001
      [⟨.online, 0, DeviceStats.init, ⟨none, none, none, none, none⟩⟩,
       ⟨.online, 0, DeviceStats.init, ⟨none, none, none, none, none⟩⟩]
      = [⟨.online, 0, DeviceStats.init, ⟨none, none, none, none, none⟩⟩,
         ⟨.online, 0, DeviceStats.init, ⟨none, none, none, none, none⟩⟩]
    ∧ (sweepStep 600001
        ⟨.online, 0, DeviceStats.init, ⟨none, none, none, none, none⟩⟩).status
      = .offline := by
  constructor
  · unfold sweepRun
    rw [if_pos ⟨rfl, by norm_num [sweepTimeout]⟩, if_pos rfl]
  · unfold sweepStep
    rw [if_pos ⟨rfl, by norm_num [sweepTimeout]⟩]

/-- Claim C6 (corrected): the job-level catch means a failing device.save
does not crash the process — it is logged — but it ends the sweep run: the
devices before the failing one keep their sweep transitions, the failing
device keeps its pre-sweep persisted state, and every later device is left
unprocessed rather than the sweep continuing. -/
theorem C6_sweep_abort_amended (f : Device → Bool) (now : ℚ)
    (pre : List Device) (d : Device) (post : List Device)
    (hpre : ∀ p ∈ pre, f { p with status := DeviceStatus.offline } = false)
    (hd : d.status = .online ∧ sweepTimeout < now - d.lastSeen)
    (hf : f { d with status := DeviceStatus.offline } = true) :
    sweepRun f now (pre ++ d :: post) = pre.map (sweepStep now) ++ d :: post := by
  induction pre with
  | nil =>
    simp only [List.nil_append, List.map_nil]
    unfold sweepRun
    rw [if_pos hd, if_pos hf]
  | cons p rest ih =>
    have hp := hpre p (List.mem_cons_self p rest)
    have ihr := ih fun x hx => hpre x (List.mem_cons_of_mem p hx)
    simp only [List.cons_append, List.map_cons]
    by_cases hcond : p.status = .online ∧ sweepTimeout < now - p.lastSeen
    · unfold sweepRun
      rw [if_pos hcond, if_neg (by simp [hp]), ihr]
      conv_rhs => rw [sweepStep, if_pos hcond]
    · unfold sweepRun
      rw [if_neg hcond, ihr]
      conv_rhs => rw [sweepStep, if_neg hcond]

/-- Witness for C6: save failing exactly on the stale device with lastSeen
0 ends the run — the fresh-enough first device is swept normally, the
failing device and the device after it stay as they were. -/
theorem C6_sweep_abort_amended_witness :
    sweepRun (fun x => decide (x.lastSeen = 0)) 600001
      ([⟨.online, 5, DeviceStats.init, ⟨none, none, none, none, none⟩⟩] ++
        ⟨.online, 0, DeviceStats.init, ⟨none, none, none, none, none⟩⟩ ::
          [⟨.offline, 3, DeviceStats.init, ⟨none, none, none, none, none⟩⟩])
      = [⟨.online, 5, DeviceStats.init, ⟨none, none, none, none, none⟩⟩].map (sweepStep 600001)
        ++ ⟨.online, 0, DeviceStats.init, ⟨none, none, none, none, none⟩⟩ ::
          [⟨.offline, 3, DeviceStats.init, ⟨none, none, none, none, none⟩⟩] :=
  C6_sweep_abort_amended (fun x => decide (x.lastSeen = 0)) 600001
    [⟨.online, 5, DeviceStats.init, ⟨none, none, none, none, none⟩⟩]
    ⟨.online, 0, DeviceStats.init, ⟨none, none, none, none, none⟩⟩
    [⟨.offline, 3, DeviceStats.init, ⟨none, none, none, none, none⟩⟩]
    (by
      intro p hp
      simp only [List.mem_singleton] at hp
      subst hp
      norm_num)
    ⟨rfl, by norm_num [sweepTimeout]⟩
    (by norm_num)

end Auronyx
